import Mathlib

/-!
Verification of the tri-state result algebra from the `trying` crate.

The Rust sources embedded here are `src/warn_result.rs`,
`src/warn_result/maybe_warn.rs` and `src/assert.rs`. Machine types are
modelled directly (the types are polymorphic sums; no machine arithmetic is
involved). Rust `Infallible` is Lean `Empty`, the `?` operator is modelled by
the `branch`/`from_residual` pair exactly as the `Try`/`FromResidual`
implementations define it, and iterator collection is modelled over `List`
(the canonical `FromIterator`/`Extend` container instantiation).
-/

namespace Trying

/-- Embeds `MaybeWarn<T, W>` from `src/warn_result/maybe_warn.rs`. -/
inductive MaybeWarn (T W : Type) where
  | Ok : T → MaybeWarn T W
  | Warn : T → W → MaybeWarn T W
deriving DecidableEq

/-- Embeds `MaybeWarn::discard_warnings`: return the value, drop any diagnostic. -/
def MaybeWarn.discard_warnings {T W : Type} : MaybeWarn T W → T
  | .Ok val => val
  | .Warn val _ => val

/-- Embeds the value read of `MaybeWarn::value` (reference semantics elided). -/
def MaybeWarn.value {T W : Type} : MaybeWarn T W → T
  | .Ok val => val
  | .Warn val _ => val

/-- Embeds the tri-state `Result<T, E, W>` from `src/warn_result.rs`. -/
inductive Result (T E W : Type) where
  | Ok : T → Result T E W
  | Warn : T → W → Result T E W
  | Err : E → Result T E W
deriving DecidableEq

/-- Embeds `core::result::Result<T, E>`, the plain binary result. -/
inductive CoreResult (T E : Type) where
  | Ok : T → CoreResult T E
  | Err : E → CoreResult T E
deriving DecidableEq

/-- Embeds `core::ops::ControlFlow<B, C>`, the branch outcome of `Try`. -/
inductive ControlFlow (B C : Type) where
  | Continue : C → ControlFlow B C
  | Break : B → ControlFlow B C

/-- Embeds `Result::is_ok`. -/
def Result.is_ok {T E W : Type} : Result T E W → Bool
  | .Ok _ => true
  | _ => false

/-- Embeds `Result::is_warn`. -/
def Result.is_warn {T E W : Type} : Result T E W → Bool
  | .Warn _ _ => true
  | _ => false

/-- Embeds `Result::is_err`. -/
def Result.is_err {T E W : Type} : Result T E W → Bool
  | .Err _ => true
  | _ => false

/-- Embeds `<Result as Try>::branch` (`src/warn_result.rs` lines 216-222):
the residual type is `Result<Infallible, E, Infallible>`. -/
def Result.branch {T E W : Type} : Result T E W → ControlFlow (Result Empty E Empty) (MaybeWarn T W)
  | .Ok val => .Continue (.Ok val)
  | .Warn val warn => .Continue (.Warn val warn)
  | .Err err => .Break (.Err err)

/-- Embeds `<Result as FromResidual>::from_residual` (`src/warn_result.rs` lines 225-233). -/
def Result.from_residual {T E W : Type} : Result Empty E Empty → Result T E W
  | .Err err => .Err err
  | .Ok val => val.elim
  | .Warn val _ => val.elim

/-- Embeds `From<MaybeWarn<T, W>> for Result<T, E, W>` (`src/warn_result.rs` lines 186-194). -/
def Result.from_maybe_warn {T E W : Type} : MaybeWarn T W → Result T E W
  | .Ok val => .Ok val
  | .Warn val warn => .Warn val warn

/-- Embeds `From<CoreResult<T, E>> for Result<T, E, W>` (`src/warn_result.rs` lines 196-204). -/
def Result.from_core {T E W : Type} : CoreResult T E → Result T E W
  | .Ok val => .Ok val
  | .Err err => .Err err

/-- Embeds `Result::map`, whose Rust body is `f(self?).into()`: the `?` is the
`branch`/`from_residual` pair. -/
def Result.map {T U E W : Type} (r : Result T E W) (f : MaybeWarn T W → MaybeWarn U W) :
    Result U E W :=
  match r.branch with
  | .Continue o => Result.from_maybe_warn (f o)
  | .Break res => Result.from_residual res

/-- Embeds `Result::and_then`, whose Rust body is `f(self?)`. -/
def Result.and_then {T U E W : Type} (r : Result T E W) (f : MaybeWarn T W → Result U E W) :
    Result U E W :=
  match r.branch with
  | .Continue o => f o
  | .Break res => Result.from_residual res

/-- Embeds `Result::map_val`. -/
def Result.map_val {T U E W : Type} (r : Result T E W) (f : T → U) : Result U E W :=
  match r with
  | .Ok val => .Ok (f val)
  | .Warn val warn => .Warn (f val) warn
  | .Err err => .Err err

/-- Embeds `Result::map_warn`. -/
def Result.map_warn {T U E W : Type} (r : Result T E W) (f : W → U) : Result T E U :=
  match r with
  | .Ok val => .Ok val
  | .Warn val warn => .Warn val (f warn)
  | .Err err => .Err err

/-- Embeds `Result::map_err`. -/
def Result.map_err {T U E W : Type} (r : Result T E W) (f : E → U) : Result T U W :=
  match r with
  | .Ok val => .Ok val
  | .Warn val warn => .Warn val warn
  | .Err err => .Err (f err)

/-- Embeds `Result::or_else`. -/
def Result.or_else {T E U W : Type} (r : Result T E W) (f : E → Result T U W) : Result T U W :=
  match r with
  | .Ok val => .Ok val
  | .Warn val warn => .Warn val warn
  | .Err err => f err

/-- Embeds `Result::transpose_lossy` (`src/warn_result.rs` lines 144-155). -/
def Result.transpose_lossy {T E W : Type} : Result (Option T) E W → Option (Result T E W)
  | .Ok (some val) => some (.Ok val)
  | .Ok none => none
  | .Warn none _ => none
  | .Warn (some val) warn => some (.Warn val warn)
  | .Err err => some (.Err err)

/-- Embeds `Result::flatten_inner` (`src/warn_result.rs` lines 157-169). -/
def Result.flatten_inner {T E W : Type} : Result (Result T E W) E W → Result T E W
  | .Ok (.Ok val) => .Ok val
  | .Ok (.Warn val warn) => .Warn val warn
  | .Warn (.Warn val warn) _ => .Warn val warn
  | .Warn (.Ok val) warn => .Warn val warn
  | .Ok (.Err err) => .Err err
  | .Warn (.Err err) _ => .Err err
  | .Err err => .Err err

/-- Embeds `Result::flatten_outer` (`src/warn_result.rs` lines 171-183). -/
def Result.flatten_outer {T E W : Type} : Result (Result T E W) E W → Result T E W
  | .Ok (.Ok val) => .Ok val
  | .Ok (.Warn val warn) => .Warn val warn
  | .Warn (.Ok val) warn => .Warn val warn
  | .Warn (.Warn val _) warn => .Warn val warn
  | .Ok (.Err err) => .Err err
  | .Warn (.Err err) _ => .Err err
  | .Err err => .Err err

/-- Embeds the `scan` pass of `FromIterator<Result<T1, E, W1>> for Result<T, E, W>`
(`src/warn_result.rs` lines 268-302): walk the items left to right threading the
running `state : Result<(), E, ()>` and the diagnostics container; `Ok` yields the
value, `Warn` escalates the state, appends the diagnostic and yields the value,
`Err` stores the error in the state and stops the iteration. Returns the final
state, the diagnostics collected and the values collected. -/
def Result.from_iter_scan {T E W : Type} :
    List (Result T E W) → Result Unit E Unit → List W →
      Result Unit E Unit × List W × List T
  | [], state, warns => (state, warns, [])
  | .Ok val :: rest, state, warns =>
      let (st, ws, out) := Result.from_iter_scan rest state warns
      (st, ws, val :: out)
  | .Warn val warn :: rest, _, warns =>
      let (st, ws, out) := Result.from_iter_scan rest (.Warn () ()) (warns ++ [warn])
      (st, ws, val :: out)
  | .Err err :: _, _, warns => (.Err err, warns, [])

/-- Embeds `FromIterator<Result<T1, E, W1>> for Result<T, E, W>`: run the scan
from the initial `Ok` state and empty diagnostics, then report according to the
final state. -/
def Result.from_iter {T E W : Type} (l : List (Result T E W)) : Result (List T) E (List W) :=
  match Result.from_iter_scan l (.Ok ()) [] with
  | (.Ok _, _, out) => .Ok out
  | (.Warn _ _, warns, out) => .Warn out warns
  | (.Err err, _, _) => .Err err

/-- Embeds the `scan` pass of `FromIterator<CoreResult<T1, E>> for Result<T, E, W>`
(`src/warn_result.rs` lines 304-327). -/
def Result.from_iter_core_scan {T E : Type} :
    List (CoreResult T E) → CoreResult Unit E → CoreResult Unit E × List T
  | [], state => (state, [])
  | .Ok val :: rest, state =>
      let (st, out) := Result.from_iter_core_scan rest state
      (st, val :: out)
  | .Err err :: _, _ => (.Err err, [])

/-- Embeds `FromIterator<CoreResult<T1, E>> for Result<T, E, W>`. -/
def Result.from_iter_core {T E W : Type} (l : List (CoreResult T E)) : Result (List T) E W :=
  match Result.from_iter_core_scan l (.Ok ()) with
  | (.Ok _, out) => .Ok out
  | (.Err err, _) => .Err err

/-- Models `std::process::ExitCode` restricted to the two constants the
source uses, `SUCCESS` and `FAILURE`. -/
inductive ExitCode where
  | success : ExitCode
  | failure : ExitCode
deriving DecidableEq

/-- Embeds `Termination for Result<T, E, W>` (`src/warn_result.rs` lines 252-266).
The `T: Termination`, `E: Debug` and `W: Debug` bounds are passed as the functions
`inner` (the report of the carried value) and `dbgE`/`dbgW` (the `Debug`
formatting). The result is the list of lines this implementation writes to the
error stream, in order, paired with the exit code. -/
def Result.report {T E W : Type} (r : Result T E W) (inner : T → ExitCode)
    (dbgE : E → String) (dbgW : W → String) : List String × ExitCode :=
  match r with
  | .Ok val => ([], inner val)
  | .Warn val warn => (["Warning: " ++ dbgW warn], inner val)
  | .Err err => (["Error: " ++ dbgE err], ExitCode.failure)

/-- Embeds `AssertInner` from `src/assert.rs`. `core::panic::Location` is
modelled as the string it displays as, `Cow<str>` as `String`. -/
inductive AssertInner where
  | Success : AssertInner
  | Failure : String → String → AssertInner
deriving DecidableEq

/-- Embeds the `Assert` wrapper struct from `src/assert.rs`. -/
structure Assert where
  inner : AssertInner
deriving DecidableEq

/-- Embeds `AssertResidual` from `src/assert.rs`: the captured location and message. -/
structure AssertResidual where
  loc : String
  msg : String
deriving DecidableEq

/-- Embeds `Assert::inner_defuse` (`src/assert.rs` lines 86-88), which replaces
the inner state with `Success` via `mem::replace` and returns the old state.
The first component is the returned old state, the second is the state the
consumed value holds when it is subsequently dropped. -/
def Assert.inner_defuse (a : Assert) : AssertInner × Assert :=
  (a.inner, ⟨AssertInner.Success⟩)

/-- Embeds the `Debug` formatting of `Assert` (`src/assert.rs` lines 205-216). -/
def Assert.debug_fmt (a : Assert) : String :=
  match a.inner with
  | .Failure loc msg => "Assertion Failed: " ++ msg ++ " at " ++ loc
  | .Success => "Assertion Successful"

/-- Embeds `Drop for Assert` (`src/assert.rs` lines 197-203): dropping a value
whose state is `Failure` panics with a message that appends the `Debug` form of
the value; dropping a `Success` does nothing. `some msg` models the fatal abort
with panic message `msg`, `none` models a silent drop. -/
def Assert.drop_outcome (a : Assert) : Option String :=
  match a.inner with
  | .Failure _ _ =>
      some ("Failed assertion dropped. (Did you forget a `?` or `to_panic`?)\n"
        ++ a.debug_fmt)
  | .Success => none

/-- Embeds `Assert::success`. -/
def Assert.success : Assert := ⟨AssertInner.Success⟩

/-- Embeds `Assert::failure`, with the caller location made explicit. -/
def Assert.failure (loc : String) : Assert :=
  ⟨AssertInner.Failure loc "Assertion failed"⟩

/-- Embeds `<Assert as Try>::branch` (`src/assert.rs` lines 226-231): calls
`inner_defuse`, breaking with the residual on failure and continuing on
success. The second component is the consumed value as it is dropped. -/
def Assert.branch (a : Assert) : ControlFlow AssertResidual Unit × Assert :=
  match a.inner_defuse with
  | (.Failure loc msg, dropped) => (.Break ⟨loc, msg⟩, dropped)
  | (.Success, dropped) => (.Continue (), dropped)

/-- Embeds `Assert::to_panic` (`src/assert.rs` lines 174-178): `some msg`
models the explicit conversion to a panic with message `msg`, `none` models a
silent return. The second component is the consumed value as it is dropped. -/
def Assert.to_panic (a : Assert) : Option String × Assert :=
  match a.inner_defuse with
  | (.Failure loc msg, dropped) => (some (msg ++ " at " ++ loc), dropped)
  | (.Success, dropped) => (none, dropped)

/-- Embeds `Assert::defuse` (`src/assert.rs` lines 182-184): consume the
assertion harmlessly. The result is the consumed value as it is dropped. -/
def Assert.defuse (a : Assert) : Assert :=
  (a.inner_defuse).2

/-- Embeds `<Assert as FromResidual>::from_residual` (`src/assert.rs` lines 234-238). -/
def Assert.from_residual (r : AssertResidual) : Assert :=
  ⟨AssertInner.Failure r.loc r.msg⟩

/-- Severity of a tri-state outcome, the order of the spec being
`err > warn > ok`. -/
inductive Severity where
  | ok : Severity
  | warn : Severity
  | err : Severity
deriving DecidableEq

/-- Severity of a tri-state result. -/
def Result.severity {T E W : Type} : Result T E W → Severity
  | .Ok _ => .ok
  | .Warn _ _ => .warn
  | .Err _ => .err

/-- Severity of a continuation payload (it can never be `err`). -/
def MaybeWarn.severity {T W : Type} : MaybeWarn T W → Severity
  | .Ok _ => .ok
  | .Warn _ _ => .warn

/-- The combination rule the spec states: `err` if any contributing outcome is
`err`, else `warn` if any is `warn`, else `ok`. -/
def combined_severity (l : List Severity) : Severity :=
  if Severity.err ∈ l then .err else if Severity.warn ∈ l then .warn else .ok

/-- The contributing outcomes of a nested result: the outer severity, and the
inner severity when an inner result is present. -/
def nested_contribs {T E W : Type} : Result (Result T E W) E W → List Severity
  | .Ok inner => [Severity.ok, inner.severity]
  | .Warn inner _ => [Severity.warn, inner.severity]
  | .Err _ => [Severity.err]

/-- Whether a list of tri-state results contains an `Err` item. -/
def has_err {T E W : Type} (l : List (Result T E W)) : Bool :=
  l.any Result.is_err

/-- Whether a list of tri-state results contains a `Warn` item. -/
def has_warn {T E W : Type} (l : List (Result T E W)) : Bool :=
  l.any Result.is_warn

/-- The values carried by the non-`Err` items of a list, in order. -/
def values {T E W : Type} : List (Result T E W) → List T
  | [] => []
  | .Ok val :: rest => val :: values rest
  | .Warn val _ :: rest => val :: values rest
  | .Err _ :: rest => values rest

/-- The diagnostics carried by the `Warn` items of a list, in order. -/
def warnings {T E W : Type} : List (Result T E W) → List W
  | [] => []
  | .Ok _ :: rest => warnings rest
  | .Warn _ warn :: rest => warn :: warnings rest
  | .Err _ :: rest => warnings rest

/-- Whether a list of binary results contains an `Err` item. -/
def core_has_err {T E : Type} (l : List (CoreResult T E)) : Bool :=
  l.any (fun r => match r with | .Err _ => true | .Ok _ => false)

/-- The values carried by the `Ok` items of a list of binary results, in order. -/
def core_values {T E : Type} : List (CoreResult T E) → List T
  | [] => []
  | .Ok val :: rest => val :: core_values rest
  | .Err _ :: rest => core_values rest

/-- The narrowing back to a binary result that the spec describes: take the
branch of the tri-state value, apply `discard_warnings` to a continuation
payload, and keep the residual error. Composed entirely of source operations. -/
def Result.narrow {T E W : Type} (r : Result T E W) : CoreResult T E :=
  match r.branch with
  | .Continue o => .Ok o.discard_warnings
  | .Break (.Err err) => .Err err
  | .Break (.Ok val) => val.elim
  | .Break (.Warn val _) => val.elim

lemma severity_from_maybe_warn {T E W : Type} (m : MaybeWarn T W) :
    (Result.from_maybe_warn m : Result T E W).severity = m.severity := by
  cases m <;> rfl

lemma severity_eq_err_iff {T E W : Type} (r : Result T E W) :
    r.severity = Severity.err ↔ r.is_err = true := by
  cases r <;> simp [Result.severity, Result.is_err]

lemma severity_eq_warn_iff {T E W : Type} (r : Result T E W) :
    r.severity = Severity.warn ↔ r.is_warn = true := by
  cases r <;> simp [Result.severity, Result.is_warn]

lemma err_mem_map_severity {T E W : Type} (l : List (Result T E W)) :
    Severity.err ∈ l.map Result.severity ↔ has_err l = true := by
  simp only [List.mem_map, has_err, List.any_eq_true]
  constructor
  · rintro ⟨r, hr, hs⟩
    exact ⟨r, hr, (severity_eq_err_iff r).1 hs⟩
  · rintro ⟨r, hr, hs⟩
    exact ⟨r, hr, (severity_eq_err_iff r).2 hs⟩

lemma warn_mem_map_severity {T E W : Type} (l : List (Result T E W)) :
    Severity.warn ∈ l.map Result.severity ↔ has_warn l = true := by
  simp only [List.mem_map, has_warn, List.any_eq_true]
  constructor
  · rintro ⟨r, hr, hs⟩
    exact ⟨r, hr, (severity_eq_warn_iff r).1 hs⟩
  · rintro ⟨r, hr, hs⟩
    exact ⟨r, hr, (severity_eq_warn_iff r).2 hs⟩

lemma from_iter_scan_no_err {T E W : Type} :
    ∀ (l : List (Result T E W)) (st : Result Unit E Unit) (ws : List W),
      has_err l = false →
      Result.from_iter_scan l st ws =
        (cond (has_warn l) (Result.Warn () ()) st, ws ++ warnings l, values l)
  | [], st, ws, _ => by
      simp [Result.from_iter_scan, has_warn, warnings, values]
  | .Ok v :: rest, st, ws, h => by
      have hr : has_err rest = false := by
        simpa [has_err, Result.is_err] using h
      simp [Result.from_iter_scan, from_iter_scan_no_err rest st ws hr, has_warn,
        Result.is_warn, warnings, values]
  | .Warn v w :: rest, st, ws, h => by
      have hr : has_err rest = false := by
        simpa [has_err, Result.is_err] using h
      simp [Result.from_iter_scan, from_iter_scan_no_err rest (.Warn () ()) (ws ++ [w]) hr,
        has_warn, Result.is_warn, warnings, values, Bool.cond_self]
  | .Err e :: rest, st, ws, h => by
      simp [has_err, Result.is_err] at h

lemma from_iter_scan_first_err {T E W : Type} :
    ∀ (l1 : List (Result T E W)) (e : E) (l2 : List (Result T E W))
      (st : Result Unit E Unit) (ws : List W),
      has_err l1 = false →
      Result.from_iter_scan (l1 ++ .Err e :: l2) st ws = (.Err e, ws ++ warnings l1, values l1)
  | [], e, l2, st, ws, _ => by
      simp [Result.from_iter_scan, warnings, values]
  | .Ok v :: rest, e, l2, st, ws, h => by
      have hr : has_err rest = false := by
        simpa [has_err, Result.is_err] using h
      simp [Result.from_iter_scan, from_iter_scan_first_err rest e l2 st ws hr,
        warnings, values]
  | .Warn v w :: rest, e, l2, st, ws, h => by
      have hr : has_err rest = false := by
        simpa [has_err, Result.is_err] using h
      simp [Result.from_iter_scan,
        from_iter_scan_first_err rest e l2 (.Warn () ()) (ws ++ [w]) hr, warnings, values]
  | .Err f :: rest, e, l2, st, ws, h => by
      simp [has_err, Result.is_err] at h

lemma exists_first_err {T E W : Type} :
    ∀ l : List (Result T E W), has_err l = true →
      ∃ l1 e l2, l = l1 ++ .Err e :: l2 ∧ has_err l1 = false
  | [], h => by simp [has_err] at h
  | .Ok v :: rest, h => by
      have hr : has_err rest = true := by
        simpa [has_err, Result.is_err] using h
      obtain ⟨l1, e, l2, rfl, h1⟩ := exists_first_err rest hr
      exact ⟨.Ok v :: l1, e, l2, rfl, by simpa [has_err, Result.is_err] using h1⟩
  | .Warn v w :: rest, h => by
      have hr : has_err rest = true := by
        simpa [has_err, Result.is_err] using h
      obtain ⟨l1, e, l2, rfl, h1⟩ := exists_first_err rest hr
      exact ⟨.Warn v w :: l1, e, l2, rfl, by simpa [has_err, Result.is_err] using h1⟩
  | .Err e :: rest, _ => ⟨[], e, rest, rfl, rfl⟩

lemma from_iter_core_scan_no_err {T E : Type} :
    ∀ (l : List (CoreResult T E)) (st : CoreResult Unit E),
      core_has_err l = false →
      Result.from_iter_core_scan l st = (st, core_values l)
  | [], st, _ => by simp [Result.from_iter_core_scan, core_values]
  | .Ok v :: rest, st, h => by
      have hr : core_has_err rest = false := by
        simpa [core_has_err] using h
      simp [Result.from_iter_core_scan, from_iter_core_scan_no_err rest st hr, core_values]
  | .Err e :: rest, st, h => by
      simp [core_has_err] at h

lemma from_iter_core_scan_first_err {T E : Type} :
    ∀ (l1 : List (CoreResult T E)) (e : E) (l2 : List (CoreResult T E))
      (st : CoreResult Unit E),
      core_has_err l1 = false →
      Result.from_iter_core_scan (l1 ++ .Err e :: l2) st = (.Err e, core_values l1)
  | [], e, l2, st, _ => by simp [Result.from_iter_core_scan, core_values]
  | .Ok v :: rest, e, l2, st, h => by
      have hr : core_has_err rest = false := by
        simpa [core_has_err] using h
      simp [Result.from_iter_core_scan, from_iter_core_scan_first_err rest e l2 st hr,
        core_values]
  | .Err f :: rest, e, l2, st, h => by
      simp [core_has_err] at h

/-- C2: collecting a finite sequence of tri-state results with no `Err` item
yields `Warn` of every value in order and every diagnostic in encounter order
(skipping `Ok` items) when some item is `Warn`, else `Ok` of every value in
order; the empty sequence yields `Ok` of the empty container. -/
theorem aggregation_completeness (T E W : Type) (l : List (Result T E W))
    (h : has_err l = false) :
    (has_warn l = true → Result.from_iter l = Result.Warn (values l) (warnings l)) ∧
    (has_warn l = false → Result.from_iter l = Result.Ok (values l)) ∧
    Result.from_iter ([] : List (Result T E W)) = Result.Ok [] := by
  have hs := from_iter_scan_no_err l (.Ok ()) [] h
  refine ⟨fun hw => ?_, fun hw => ?_, rfl⟩ <;>
    simp [Result.from_iter, hs, hw]

/-- C2 witness: a concrete no-`Err` sequence aggregates to `Warn` of the values
and the diagnostics in order. -/
theorem aggregation_completeness_witness :
    Result.from_iter
        [Result.Ok 1, Result.Warn 2 10, Result.Ok 3, Result.Warn 4 20] =
      (Result.Warn [1, 2, 3, 4] [10, 20] : Result (List Nat) Nat (List Nat)) :=
  (aggregation_completeness Nat Nat Nat
    [Result.Ok 1, Result.Warn 2 10, Result.Ok 3, Result.Warn 4 20] rfl).1 rfl

/-- C3: collecting a sequence whose first `Err` is `Err e` returns `Err e`,
consumes nothing after that first `Err` (the outcome does not depend on the
suffix), and the internal diagnostics container holds exactly the diagnostics
of the `Warn` items strictly before the first `Err`. -/
theorem aggregation_short_circuit (T E W : Type) (l1 : List (Result T E W)) (e : E)
    (l2 : List (Result T E W)) (h : has_err l1 = false) :
    Result.from_iter (l1 ++ .Err e :: l2) = Result.Err e ∧
    (∀ l2', Result.from_iter (l1 ++ .Err e :: l2) = Result.from_iter (l1 ++ .Err e :: l2')) ∧
    (Result.from_iter_scan (l1 ++ .Err e :: l2) (.Ok ()) []).2.1 = warnings l1 := by
  have hs := from_iter_scan_first_err l1 e l2 (.Ok ()) [] h
  refine ⟨by simp [Result.from_iter, hs], fun l2' => ?_, by simp [hs]⟩
  have hs' := from_iter_scan_first_err l1 e l2' (.Ok ()) [] h
  simp [Result.from_iter, hs, hs']

/-- C3 witness: `[Ok 1, Warn 2 10, Err 99, Ok 3]` aggregates to `Err 99` and
the internal diagnostics container holds only the diagnostic before the error. -/
theorem aggregation_short_circuit_witness :
    (Result.from_iter [Result.Ok 1, Result.Warn 2 10, Result.Err 99, Result.Ok 3] =
      (Result.Err 99 : Result (List Nat) Nat (List Nat))) ∧
    (Result.from_iter_scan
        [Result.Ok 1, Result.Warn (2 : Nat) (10 : Nat), Result.Err (99 : Nat), Result.Ok 3]
        (.Ok ()) []).2.1 = [10] :=
  ⟨(aggregation_short_circuit Nat Nat Nat [Result.Ok 1, Result.Warn 2 10] 99
      [Result.Ok 3] rfl).1,
    (aggregation_short_circuit Nat Nat Nat [Result.Ok 1, Result.Warn 2 10] 99
      [Result.Ok 3] rfl).2.2⟩

/-- C4: `flatten_inner` keeps the inner diagnostic when both levels warn,
`flatten_outer` keeps the outer one; a single warning at either level is kept
by both; an `Err` at either level yields that `Err` for both. -/
theorem flatten_precedence (T E W : Type) (x : T) (wi wo : W) (e : E) :
    (Result.Warn (Result.Warn x wi) wo : Result (Result T E W) E W).flatten_inner =
      Result.Warn x wi ∧
    (Result.Warn (Result.Warn x wi) wo : Result (Result T E W) E W).flatten_outer =
      Result.Warn x wo ∧
    (Result.Ok (Result.Warn x wi) : Result (Result T E W) E W).flatten_inner =
      Result.Warn x wi ∧
    (Result.Ok (Result.Warn x wi) : Result (Result T E W) E W).flatten_outer =
      Result.Warn x wi ∧
    (Result.Warn (Result.Ok x) wo : Result (Result T E W) E W).flatten_inner =
      Result.Warn x wo ∧
    (Result.Warn (Result.Ok x) wo : Result (Result T E W) E W).flatten_outer =
      Result.Warn x wo ∧
    (Result.Ok (Result.Ok x) : Result (Result T E W) E W).flatten_inner = Result.Ok x ∧
    (Result.Ok (Result.Ok x) : Result (Result T E W) E W).flatten_outer = Result.Ok x ∧
    (Result.Err e : Result (Result T E W) E W).flatten_inner = Result.Err e ∧
    (Result.Err e : Result (Result T E W) E W).flatten_outer = Result.Err e ∧
    (Result.Ok (Result.Err e) : Result (Result T E W) E W).flatten_inner = Result.Err e ∧
    (Result.Ok (Result.Err e) : Result (Result T E W) E W).flatten_outer = Result.Err e ∧
    (Result.Warn (Result.Err e) wo : Result (Result T E W) E W).flatten_inner =
      Result.Err e ∧
    (Result.Warn (Result.Err e) wo : Result (Result T E W) E W).flatten_outer =
      Result.Err e :=
  ⟨rfl, rfl, rfl, rfl, rfl, rfl, rfl, rfl, rfl, rfl, rfl, rfl, rfl, rfl⟩

/-- C5: branching yields the continuation payload `MaybeWarn.Ok v` for `Ok v`
and `MaybeWarn.Warn v w` for `Warn v w`; `Err e` breaks with a residual whose
lift through `from_residual` is exactly `Err e`; hence `and_then` on an `Err`
returns that same `Err` and its outcome does not depend on the closure. -/
theorem propagation_operator (T U E W : Type) (v : T) (w : W) (e : E)
    (f g : MaybeWarn T W → Result U E W) :
    (Result.Ok v : Result T E W).branch = .Continue (MaybeWarn.Ok v) ∧
    (Result.Warn v w : Result T E W).branch = .Continue (MaybeWarn.Warn v w) ∧
    (Result.Err e : Result T E W).branch = .Break (Result.Err e) ∧
    (Result.from_residual (Result.Err e) : Result T E W) = Result.Err e ∧
    (Result.Err e : Result T E W).and_then f = Result.Err e ∧
    (Result.Err e : Result T E W).and_then f = (Result.Err e : Result T E W).and_then g :=
  ⟨rfl, rfl, rfl, rfl, rfl, rfl⟩

/-- C6: `transpose_lossy` maps `Ok (some v)` to `some (Ok v)`,
`Warn (some v) w` to `some (Warn v w)`, `Err e` to `some (Err e)`, and both
`Ok none` and `Warn none w` to `none`; in the last case the diagnostic is
dropped, so the output does not depend on it. -/
theorem transpose_lossy_spec (T E W : Type) (v : T) (w w' : W) (e : E) :
    (Result.Ok (some v) : Result (Option T) E W).transpose_lossy = some (Result.Ok v) ∧
    (Result.Warn (some v) w : Result (Option T) E W).transpose_lossy =
      some (Result.Warn v w) ∧
    (Result.Err e : Result (Option T) E W).transpose_lossy = some (Result.Err e) ∧
    (Result.Ok (none : Option T) : Result (Option T) E W).transpose_lossy = none ∧
    (Result.Warn (none : Option T) w : Result (Option T) E W).transpose_lossy = none ∧
    (Result.Warn (none : Option T) w : Result (Option T) E W).transpose_lossy =
      (Result.Warn (none : Option T) w' : Result (Option T) E W).transpose_lossy :=
  ⟨rfl, rfl, rfl, rfl, rfl, rfl⟩

/-- C7: lifting a binary result into the tri-state type maps `Ok` to `Ok` and
`Err` to `Err`, never produces `Warn`, and narrowing back (discarding warnings
on the continuation payload, keeping the residual error) reproduces the
original binary result. -/
theorem round_trip_lift (T E W : Type) (r : CoreResult T E) :
    (Result.from_core r : Result T E W).is_warn = false ∧
    (Result.from_core r : Result T E W).narrow = r ∧
    (∀ x, (Result.from_core (CoreResult.Ok x) : Result T E W) = Result.Ok x) ∧
    (∀ e, (Result.from_core (CoreResult.Err e) : Result T E W) = Result.Err e) := by
  cases r <;> exact ⟨rfl, rfl, fun _ => rfl, fun _ => rfl⟩

/-- C10: collecting a finite sequence of plain binary results into a tri-state
result never yields `Warn`; with no `Err` it yields `Ok` of every value in
order, and otherwise it yields the first `Err`, consuming nothing after it. -/
theorem core_aggregation (T E W : Type) (l : List (CoreResult T E)) :
    (Result.from_iter_core l : Result (List T) E W).is_warn = false ∧
    (core_has_err l = false →
      (Result.from_iter_core l : Result (List T) E W) = Result.Ok (core_values l)) ∧
    (∀ l1 e l2, core_has_err l1 = false → l = l1 ++ CoreResult.Err e :: l2 →
      (Result.from_iter_core l : Result (List T) E W) = Result.Err e ∧
      ∀ l2', (Result.from_iter_core (l1 ++ CoreResult.Err e :: l2') :
        Result (List T) E W) = Result.Err e) := by
  refine ⟨?_, fun h => ?_, fun l1 e l2 h1 hl => ?_⟩
  · rcases hsc : Result.from_iter_core_scan l (.Ok ()) with ⟨st, out⟩
    cases st <;> simp [Result.from_iter_core, hsc, Result.is_warn]
  · simp [Result.from_iter_core, from_iter_core_scan_no_err l (.Ok ()) h]
  · subst hl
    refine ⟨?_, fun l2' => ?_⟩
    · simp [Result.from_iter_core, from_iter_core_scan_first_err l1 e l2 (.Ok ()) h1]
    · simp [Result.from_iter_core, from_iter_core_scan_first_err l1 e l2' (.Ok ()) h1]

/-- C10 witness: concrete binary sequences, one without and one with an `Err`. -/
theorem core_aggregation_witness :
    (Result.from_iter_core [CoreResult.Ok 1, CoreResult.Ok 2] :
      Result (List Nat) Nat Nat) = Result.Ok [1, 2] ∧
    (Result.from_iter_core [CoreResult.Ok 1, CoreResult.Err 9, CoreResult.Ok 3] :
      Result (List Nat) Nat Nat) = Result.Err 9 :=
  ⟨(core_aggregation Nat Nat Nat [CoreResult.Ok 1, CoreResult.Ok 2]).2.1 rfl,
    ((core_aggregation Nat Nat Nat [CoreResult.Ok 1, CoreResult.Err 9, CoreResult.Ok 3]).2.2
      [CoreResult.Ok 1] 9 [CoreResult.Ok 3] rfl rfl).1⟩

/-- C9: a failed assertion dropped unconsumed aborts with a message naming the
original call site; a successful assertion never aborts on drop; an assertion
consumed by branching, by conversion to a panic, or by defusing leaves a value
whose drop never aborts, whatever its state was. -/
theorem assert_drop_safety (loc msg : String) :
    (∃ p, Assert.drop_outcome ⟨AssertInner.Failure loc msg⟩ = some (p ++ loc)) ∧
    Assert.drop_outcome ⟨AssertInner.Success⟩ = none ∧
    (∀ a : Assert, Assert.drop_outcome a.branch.2 = none ∧
      Assert.drop_outcome a.to_panic.2 = none ∧
      Assert.drop_outcome a.defuse = none) := by
  refine ⟨⟨"Failed assertion dropped. (Did you forget a `?` or `to_panic`?)\n" ++
      ("Assertion Failed: " ++ msg ++ " at "), ?_⟩, rfl, fun a => ?_⟩
  · exact congrArg some (String.append_assoc
      "Failed assertion dropped. (Did you forget a `?` or `to_panic`?)\n"
      ("Assertion Failed: " ++ msg ++ " at ") loc).symm
  · obtain ⟨inner⟩ := a
    cases inner <;> exact ⟨rfl, rfl, rfl⟩

/-- C1 counterexample: `or_else` on the contributing outcome `Err 0`, with a
recovery closure returning `Ok 1`, yields an outcome whose severity is `ok`,
not `err` — so the law as stated (any contributing `Err` forces an `Err`
output) fails on `or_else`. -/
theorem severity_law_counterexample :
    ((Result.Err 0 : Result Nat Nat Nat).or_else
        (fun _ => (Result.Ok 1 : Result Nat Nat Nat))).severity = Severity.ok ∧
    (Result.Err 0 : Result Nat Nat Nat).severity = Severity.err ∧
    Severity.ok ≠ Severity.err :=
  ⟨rfl, rfl, by decide⟩

/-- C1 amended: `map_val`, `map_warn` and `map_err` combine the severity of
their single contributing outcome; both flattens combine the severities of the
two nesting levels; the aggregation combines the severities of the input items;
`map` and `and_then` yield `err` on an `Err` input and otherwise adopt the
severity of the closure result (which consumed the continuation payload,
warning included); `or_else` keeps the severity of an `Ok` or `Warn` input and
on `Err` adopts the severity of the recovery closure result. -/
theorem severity_law_amended (T U E W : Type) :
    (∀ (r : Result T E W) (f : T → U),
      (r.map_val f).severity = combined_severity [r.severity]) ∧
    (∀ (r : Result T E W) (f : W → U),
      (r.map_warn f).severity = combined_severity [r.severity]) ∧
    (∀ (r : Result T E W) (f : E → U),
      (r.map_err f).severity = combined_severity [r.severity]) ∧
    (∀ rr : Result (Result T E W) E W,
      rr.flatten_inner.severity = combined_severity (nested_contribs rr) ∧
      rr.flatten_outer.severity = combined_severity (nested_contribs rr)) ∧
    (∀ (r : Result T E W) (f : MaybeWarn T W → MaybeWarn U W),
      (r.is_err = true → (r.map f).severity = Severity.err) ∧
      (∀ o, r.branch = .Continue o → (r.map f).severity = (f o).severity)) ∧
    (∀ (r : Result T E W) (f : MaybeWarn T W → Result U E W),
      (r.is_err = true → (r.and_then f).severity = Severity.err) ∧
      (∀ o, r.branch = .Continue o → (r.and_then f).severity = (f o).severity)) ∧
    (∀ (r : Result T E W) (f : E → Result T U W),
      (r.is_err = false → (r.or_else f).severity = r.severity) ∧
      (∀ e, r = .Err e → (r.or_else f).severity = (f e).severity)) ∧
    (∀ l : List (Result T E W),
      (Result.from_iter l).severity = combined_severity (l.map Result.severity)) := by
  refine ⟨fun r f => ?_, fun r f => ?_, fun r f => ?_, fun rr => ?_,
    fun r f => ⟨fun h => ?_, fun o ho => ?_⟩, fun r f => ⟨fun h => ?_, fun o ho => ?_⟩,
    fun r f => ⟨fun h => ?_, fun e he => ?_⟩, fun l => ?_⟩
  · cases r <;> rfl
  · cases r <;> rfl
  · cases r <;> rfl
  · rcases rr with inner | ⟨inner, wo⟩ | e
    · rcases inner with v | ⟨v, wi⟩ | e2 <;> exact ⟨rfl, rfl⟩
    · rcases inner with v | ⟨v, wi⟩ | e2 <;> exact ⟨rfl, rfl⟩
    · exact ⟨rfl, rfl⟩
  · cases r with
    | Ok v => simp [Result.is_err] at h
    | Warn v w => simp [Result.is_err] at h
    | Err e => rfl
  · cases r <;> simp [Result.branch] at ho <;>
      simp [Result.map, Result.branch, ← ho, severity_from_maybe_warn]
  · cases r with
    | Ok v => simp [Result.is_err] at h
    | Warn v w => simp [Result.is_err] at h
    | Err e => rfl
  · cases r <;> simp [Result.branch] at ho <;>
      simp [Result.and_then, Result.branch, ← ho]
  · cases r with
    | Ok v => rfl
    | Warn v w => rfl
    | Err e => simp [Result.is_err] at h
  · subst he
    rfl
  · cases hE : has_err l with
    | true =>
        obtain ⟨l1, e, l2, rfl, h1⟩ := exists_first_err l hE
        have hs := from_iter_scan_first_err l1 e l2 (.Ok ()) [] h1
        have hmem : Severity.err ∈ (l1 ++ .Err e :: l2).map Result.severity :=
          (err_mem_map_severity _).2 hE
        simp [Result.from_iter, hs, Result.severity, combined_severity, hmem]
    | false =>
        have hs := from_iter_scan_no_err l (.Ok ()) [] hE
        have hne : Severity.err ∉ l.map Result.severity := by
          rw [err_mem_map_severity]
          simp [hE]
        cases hW : has_warn l with
        | true =>
            have hmw : Severity.warn ∈ l.map Result.severity :=
              (warn_mem_map_severity _).2 hW
            simp [Result.from_iter, hs, hW, Result.severity, combined_severity, hne, hmw]
        | false =>
            have hnw : Severity.warn ∉ l.map Result.severity := by
              rw [warn_mem_map_severity]
              simp [hW]
            simp [Result.from_iter, hs, hW, Result.severity, combined_severity, hne, hnw]

/-- C1 amended witness: the amended law instantiated at concrete outcomes for
each combinator family. -/
theorem severity_law_amended_witness :
    ((Result.Warn 1 2 : Result Nat Nat Nat).map_val (fun v => v + 1)).severity =
      combined_severity [(Result.Warn 1 2 : Result Nat Nat Nat).severity] ∧
    ((Result.Err 3 : Result Nat Nat Nat).map
        (fun o => o : MaybeWarn Nat Nat → MaybeWarn Nat Nat)).severity = Severity.err ∧
    ((Result.Ok 1 : Result Nat Nat Nat).and_then
        (fun _ => (Result.Warn 2 5 : Result Nat Nat Nat))).severity =
      ((fun _ : MaybeWarn Nat Nat => (Result.Warn 2 5 : Result Nat Nat Nat))
        (MaybeWarn.Ok 1)).severity ∧
    ((Result.Warn 1 2 : Result Nat Nat Nat).or_else
        (fun _ => (Result.Ok 9 : Result Nat Nat Nat))).severity =
      (Result.Warn 1 2 : Result Nat Nat Nat).severity ∧
    ((Result.Err 7 : Result Nat Nat Nat).or_else
        (fun _ => (Result.Ok 9 : Result Nat Nat Nat))).severity =
      ((fun _ : Nat => (Result.Ok 9 : Result Nat Nat Nat)) 7).severity ∧
    (Result.from_iter [Result.Ok 1, Result.Warn 2 10] :
        Result (List Nat) Nat (List Nat)).severity =
      combined_severity
        (([Result.Ok 1, Result.Warn 2 10] : List (Result Nat Nat Nat)).map
          Result.severity) :=
  ⟨(severity_law_amended Nat Nat Nat Nat).1 (Result.Warn 1 2) (fun v => v + 1),
    ((severity_law_amended Nat Nat Nat Nat).2.2.2.2.1 (Result.Err 3) (fun o => o)).1 rfl,
    ((severity_law_amended Nat Nat Nat Nat).2.2.2.2.2.1 (Result.Ok 1)
      (fun _ => Result.Warn 2 5)).2 (MaybeWarn.Ok 1) rfl,
    ((severity_law_amended Nat Nat Nat Nat).2.2.2.2.2.2.1 (Result.Warn 1 2)
      (fun _ => Result.Ok 9)).1 rfl,
    ((severity_law_amended Nat Nat Nat Nat).2.2.2.2.2.2.1 (Result.Err 7)
      (fun _ => Result.Ok 9)).2 7 rfl,
    (severity_law_amended Nat Nat Nat Nat).2.2.2.2.2.2.2
      [Result.Ok 1, Result.Warn 2 10]⟩

/-- C8 counterexample: the `Termination` implementation delegates `Ok` to the
report of the carried value, so an `Ok` whose carried value itself reports
failure (as `ExitCode::FAILURE` does) yields failure status without being
`Err` — the claim that status is failure exactly on `Err` fails. -/
theorem report_status_counterexample :
    ((Result.Ok 0 : Result Nat Nat Nat).report (fun _ => ExitCode.failure)
        (fun _ => "") (fun _ => "")).2 = ExitCode.failure ∧
    (Result.Ok 0 : Result Nat Nat Nat).is_err = false :=
  ⟨rfl, rfl⟩

/-- C8 amended: `Err` reports failure status after writing its error line; an
`Ok` writes nothing and its status is exactly the report of the carried value;
a `Warn` writes its diagnostic line first and its status is likewise exactly
the report of the carried value — the `Warn` never alters the delegated
status, and a carried value reporting failure yields failure even without an
`Err`. -/
theorem report_status_amended (T E W : Type) (inner : T → ExitCode)
    (dbgE : E → String) (dbgW : W → String) :
    (∀ e, ((Result.Err e : Result T E W).report inner dbgE dbgW).2 = ExitCode.failure ∧
      ((Result.Err e : Result T E W).report inner dbgE dbgW).1 = ["Error: " ++ dbgE e]) ∧
    (∀ v, ((Result.Ok v : Result T E W).report inner dbgE dbgW).1 = [] ∧
      ((Result.Ok v : Result T E W).report inner dbgE dbgW).2 = inner v) ∧
    (∀ v w, ((Result.Warn v w : Result T E W).report inner dbgE dbgW).1 =
        ["Warning: " ++ dbgW w] ∧
      ((Result.Warn v w : Result T E W).report inner dbgE dbgW).2 = inner v) :=
  ⟨fun _ => ⟨rfl, rfl⟩, fun _ => ⟨rfl, rfl⟩, fun _ _ => ⟨rfl, rfl⟩⟩

end Trying
